import Mathlib

/-!
Verification of the gome-assistant decision engine (src/main.go).

The program watches a printer's power draw through a VictoriaMetrics
backend and turns a Shelly relay off once the draw has stayed inside a
standby wattage band long enough.  This file shallowly embeds the
functions of main.go that the claims concern:

  - the JSON value pairs of a query result (`JVal`, `Pair`),
  - the result envelope (`VMSeries`, `VMEnvelope`) and the HTTP layer
    outcome (`HttpOutcome`),
  - `queryVM` (instant query, with the envelope-status check),
  - `getStandbyDuration` (range query plus backward scan),
  - `wasPowerTurnedOnRecently`, `hasRecentShellyMetrics`,
    `getShellyBambuWatts`, `isBambuPrinting`, `wasPrintingRecently`,
  - the per-cycle decision procedure `checkAndControl`.

Modelling conventions.  Go float64 values are embedded as rationals;
Unix timestamps are rationals truncated to Int exactly as Go's
int64(f) conversion truncates toward zero; durations are integer
seconds and time.Since(t) is now - t.  A Go interface value inside a
result pair is embedded as `JVal`: a JSON number (which type-asserts
to float64), a JSON string carrying both its text and the float that
fmt.Sscanf with the %f verb extracts from it (none when the text is
malformed, in which case the scanned variable keeps its zero value),
or anything else.  Network effects are embedded as an `HttpOutcome`
input: transport error, non-200 status, undecodable body, or a decoded
envelope.
-/

/-- A decoded JSON scalar inside a result pair.  `str s w` is the JSON
string `s` together with the float `w` that fmt.Sscanf reads from it
(`none` when no float can be read, so the scanned variable stays 0). -/
inductive JVal where
  | num (x : ℚ)
  | str (s : String) (w : Option ℚ)
  | null
deriving DecidableEq, Repr

/-- One `[timestamp, value]` pair of a query result (Go `[]interface{}`). -/
abbrev Pair := List JVal

/-- Go truncation toward zero of a float to int64: `int64(q)`. -/
def ratTrunc (q : ℚ) : Int :=
  q.num.tdiv (q.den : Int)

/-- Evaluate `pair[0].(float64)` with the ignored-ok form: a non-number
yields the zero value 0. -/
def tsOf : Pair → ℚ
  | JVal.num x :: _ => x
  | _ => 0

/-- Evaluate `pair[1].(string)` with the ignored-ok form followed by
fmt.Sscanf of the %f verb: a non-string yields the empty string, and a
string that scans to nothing leaves watts at 0. -/
def valOf : Pair → ℚ
  | _ :: JVal.str _ w :: _ => w.getD 0
  | _ => 0

/-- Evaluate `pair[1].(string)` with the checked-ok form: `none` when
pair[1] is absent or not a string, otherwise the Sscanf result of the
string (0 when malformed). -/
def valOk : Pair → Option ℚ
  | _ :: JVal.str _ w :: _ => some (w.getD 0)
  | _ => none

/-- The per-sample band test of getStandbyDuration, main.go line 409:
`watts > minWatts && watts < maxWatts` (strict on both ends). -/
def inBandScan (minW maxW w : ℚ) : Bool :=
  decide (w > minW) && decide (w < maxW)

/-- The instantaneous band test of checkAndControl, main.go line 157:
`watts >= cfg.MinWatts && watts <= cfg.MaxWatts` (inclusive on both ends). -/
def inStandbyRange (minW maxW w : ℚ) : Bool :=
  decide (w ≥ minW) && decide (w ≤ maxW)

/-- The backward scan of getStandbyDuration, main.go lines 400-418.
The argument list is the values list already reversed (newest first);
`cur` is the current standbyStart candidate.  A pair with fewer than 2
elements is skipped; an in-band pair records its (truncated) timestamp
and continues; the first out-of-band pair stops the scan. -/
def scanBack (minW maxW : ℚ) (cur : Option Int) : List Pair → Option Int
  | [] => cur
  | p :: rest =>
    if p.length ≥ 2 then
      if inBandScan minW maxW (valOf p) then
        scanBack minW maxW (some (ratTrunc (tsOf p))) rest
      else
        cur
    else
      scanBack minW maxW cur rest

/-- The standbyStart value that getStandbyDuration's loop leaves behind
for an ascending values list `vs`. -/
def standbyStart (minW maxW : ℚ) (vs : List Pair) : Option Int :=
  scanBack minW maxW none vs.reverse

/-- Outcome of one HTTP request of the program, as the decision code
observes it: transport failure, non-200 response, body that fails to
decode, or a decoded envelope. -/
inductive HttpOutcome (α : Type) where
  | transportErr
  | badStatus (code : Nat)
  | decodeErr
  | ok (env : α)
deriving DecidableEq, Repr

/-- Whether the HTTP layer failed (anything but a decoded envelope). -/
def HttpOutcome.isFail {α : Type} : HttpOutcome α → Bool
  | .ok _ => false
  | _ => true

/-- One entry of data.result: label map, instant value, range values. -/
structure VMSeries where
  metric : List (String × String)
  value : Pair
  values : List Pair
deriving DecidableEq, Repr

/-- The VictoriaMetrics response envelope (VMQueryResult in main.go). -/
structure VMEnvelope where
  status : String
  result : List VMSeries
deriving DecidableEq, Repr

/-- Go map access `m["k"]` on the label map: empty string when absent. -/
def lookupLabel (k : String) (m : List (String × String)) : String :=
  (((m.find? (fun kv => kv.1 = k)).map (fun kv => kv.2)).getD (""))

/-- queryVM, main.go lines 429-461: instant query.  Transport error,
non-200 status and decode failure are errors; a decoded envelope whose
status is not success is also an error. -/
def queryVMr (r : HttpOutcome VMEnvelope) : Except String VMEnvelope :=
  match r with
  | .transportErr => .error ("client error")
  | .badStatus _ => .error ("VM query failed with non-200 status")
  | .decodeErr => .error ("decode error")
  | .ok env =>
    if env.status = "success" then .ok env
    else .error ("VM query returned status: " ++ env.status)

/-- Duration that getStandbyDuration's tail computes from the values of
the first series: time.Since of the recorded standbyStart, i.e. now
minus the start, or 0 when no start was recorded (main.go 396-425). -/
def standbyDurationOf (minW maxW : ℚ) (now : Int) (vs : List Pair) : Int :=
  match standbyStart minW maxW vs with
  | some t => now - t
  | none => 0

/-- getStandbyDuration, main.go lines 355-426, with the range-query HTTP
outcome as input and `now` the Unix second at which time.Since is taken.
Transport error, non-200 status and decode failure are errors; note that
unlike queryVM the decoded envelope's status field is never inspected.
Zero results give duration 0; otherwise the backward scan of the first
series decides. -/
def getStandbyDurationFull (minW maxW : ℚ) (now : Int)
    (r : HttpOutcome VMEnvelope) : Except String Int :=
  match r with
  | .transportErr => .error ("client error")
  | .badStatus _ => .error ("VM range query failed with non-200 status")
  | .decodeErr => .error ("decode error")
  | .ok env =>
    match env.result with
    | [] => .ok 0
    | s :: _ => .ok (standbyDurationOf minW maxW now s.values)

/-- Convenience sample constructor: pair `[ts, "s"]` whose string scans
to the float `w`. -/
def sampleP (t : ℚ) (s : String) (w : ℚ) : Pair :=
  [JVal.num t, JVal.str s (some w)]

/-- The transition scan of wasPowerTurnedOnRecently, main.go lines
310-325: walk the pairs oldest to newest carrying the previousLow flag;
a reading below 5 W sets the flag, a reading above 10 W after the flag
was set returns true, malformed pairs are skipped. -/
def scanLowHigh (prevLow : Bool) : List Pair → Bool
  | [] => false
  | p :: rest =>
    match valOk p with
    | none => scanLowHigh prevLow rest
    | some w =>
      if w < 5 then scanLowHigh true rest
      else if prevLow && decide (w > 10) then true
      else scanLowHigh prevLow rest

/-- wasPowerTurnedOnRecently, main.go lines 267-329, from the range-query
HTTP outcome.  Like the other inline range query it never inspects the
envelope status.  Zero results give false; the scan runs only when the
first series holds more than 2 values. -/
def wasPowerTurnedOnRecentlyFull (r : HttpOutcome VMEnvelope) :
    Except String Bool :=
  match r with
  | .transportErr => .error ("client error")
  | .badStatus _ => .error ("VM range query failed with non-200 status")
  | .decodeErr => .error ("decode error")
  | .ok env =>
    match env.result with
    | [] => .ok false
    | s :: _ =>
      if s.values.length > 2 then .ok (scanLowHigh false s.values)
      else .ok false

/-- hasRecentShellyMetrics, main.go lines 242-264: instant query through
queryVM, `now` the Unix second at which time.Since is taken.  Zero
results give false without error; with a first series whose value pair
has at least two entries and a float timestamp, the answer is whether
the sample age is at most `within` (seconds); otherwise false. -/
def hasRecentShellyMetricsFull (within now : Int)
    (r : HttpOutcome VMEnvelope) : Except String Bool :=
  match queryVMr r with
  | .error e => .error e
  | .ok env =>
    match env.result with
    | [] => .ok false
    | s :: _ =>
      match s.value with
      | JVal.num ts :: _ :: _ => .ok (decide (now - ratTrunc ts ≤ within))
      | _ => .ok false

/-- getShellyBambuWatts, main.go lines 210-239: instant query through
queryVM.  Zero results are an error; otherwise the first series yields
its ip_address label and, when value[1] is a string, the scanned watts;
a non-string value[1] (or too-short pair) is a parse error. -/
def getShellyBambuWattsFull (r : HttpOutcome VMEnvelope) :
    Except String (ℚ × String) :=
  match queryVMr r with
  | .error e => .error e
  | .ok env =>
    match env.result with
    | [] => .error ("no shelly device matching pattern found")
    | d :: _ =>
      match d.value with
      | _ :: JVal.str _ w :: _ => .ok (w.getD 0, lookupLabel ("ip_address") d.metric)
      | _ => .error ("could not parse power value")

/-- isBambuPrinting, main.go lines 187-207: instant query through
queryVM; true when any series reports state string "1" or "2". -/
def isBambuPrintingFull (r : HttpOutcome VMEnvelope) : Except String Bool :=
  match queryVMr r with
  | .error e => .error e
  | .ok env =>
    .ok (env.result.any (fun s =>
      match s.value with
      | _ :: JVal.str v _ :: _ => decide (v = "1") || decide (v = "2")
      | _ => false))

/-- wasPrintingRecently, main.go lines 332-352: instant query through
queryVM over a rolling max; true when any series reports "1" or "2". -/
def wasPrintingRecentlyFull (r : HttpOutcome VMEnvelope) : Except String Bool :=
  match queryVMr r with
  | .error e => .error e
  | .ok env =>
    .ok (env.result.any (fun s =>
      match s.value with
      | _ :: JVal.str v _ :: _ => decide (v = "1") || decide (v = "2")
      | _ => false))

/-- The configuration fields that the decision cycle reads (MinWatts,
MaxWatts, StandbyDuration and CheckInterval, durations in seconds). -/
structure CfgBand where
  minWatts : ℚ
  maxWatts : ℚ
  standbyThreshold : Int
  checkInterval : Int
deriving DecidableEq, Repr

/-- The HTTP outcomes of the six queries one evaluation cycle can issue,
in source order. -/
structure CycleResponses where
  shellyResp : HttpOutcome VMEnvelope
  recentResp : HttpOutcome VMEnvelope
  powerOnResp : HttpOutcome VMEnvelope
  printingResp : HttpOutcome VMEnvelope
  wasPrintingResp : HttpOutcome VMEnvelope
  standbyResp : HttpOutcome VMEnvelope

/-- checkAndControl, main.go lines 95-183.  `st` is the cached
state.ShellyIP on entry.  Returns the cached IP on exit and whether
setShellyRelayOff was invoked.  Each failing or gating step returns
early exactly as in the source; the IP cache is overwritten only by a
non-empty ip_address from the first query; the relay is invoked only
when the standby duration meets the threshold and an IP is cached. -/
def checkAndControl (cfg : CfgBand) (now : Int) (st : String)
    (r : CycleResponses) : String × Bool :=
  match getShellyBambuWattsFull r.shellyResp with
  | .error _ => (st, false)
  | .ok (watts, shellyIP) =>
    let st1 := if shellyIP ≠ "" then shellyIP else st
    match hasRecentShellyMetricsFull (cfg.checkInterval * 2) now r.recentResp with
    | .error _ => (st1, false)
    | .ok hasRecent =>
      if !hasRecent then (st1, false)
      else
        match wasPowerTurnedOnRecentlyFull r.powerOnResp with
        | .error _ => (st1, false)
        | .ok powerOn =>
          if powerOn then (st1, false)
          else
            match isBambuPrintingFull r.printingResp with
            | .error _ => (st1, false)
            | .ok printing =>
              if printing then (st1, false)
              else
                match wasPrintingRecentlyFull r.wasPrintingResp with
                | .error _ => (st1, false)
                | .ok wasRecent =>
                  if wasRecent then (st1, false)
                  else
                    if !inStandbyRange cfg.minWatts cfg.maxWatts watts then
                      (st1, false)
                    else
                      match getStandbyDurationFull cfg.minWatts cfg.maxWatts
                          now r.standbyResp with
                      | .error _ => (st1, false)
                      | .ok d =>
                        if d ≥ cfg.standbyThreshold then
                          if st1 = "" then (st1, false) else (st1, true)
                        else (st1, false)

/-- Run a sequence of evaluation cycles, threading the cached IP. -/
def runCycles (cfg : CfgBand) (now : Int) (st : String) :
    List CycleResponses → String
  | [] => st
  | r :: rest => runCycles cfg now (checkAndControl cfg now st r).1 rest

/-- Envelope with status success and a single series holding range
values `vs`. -/
def envOfValues (vs : List Pair) : VMEnvelope :=
  ⟨"success", [⟨[], [], vs⟩]⟩

/-- The power series of the specification scenario: values
60, 60, 8, 8, 8 at 60-second steps ending at second 1000. -/
def seriesC2 : List Pair :=
  [sampleP 760 ("60") 60, sampleP 820 ("60") 60,
   sampleP 880 ("8") 8, sampleP 940 ("8") 8, sampleP 1000 ("8") 8]

/-- Cycle responses in which every gate passes and the instantaneous
power reading is exactly minWatts = 7: device reporting 7 W at second
1000 with a known IP, fresh metrics, no power-on transition, nothing
printing, and a standby history long past the threshold. -/
def respsBoundary : CycleResponses :=
  ⟨.ok ⟨"success", [⟨[("ip_address", "10.0.0.5")],
      [JVal.num 1000, JVal.str ("7") (some 7)], []⟩]⟩,
   .ok ⟨"success", [⟨[], [JVal.num 1000, JVal.str ("7") (some 7)], []⟩]⟩,
   .ok ⟨"success", []⟩,
   .ok ⟨"success", []⟩,
   .ok ⟨"success", []⟩,
   .ok (envOfValues [sampleP 0 ("8") 8])⟩

/-- C1 counterexample.  The claim says every power value used to decide
standby treats a value exactly equal to minWatts as NOT in-band, but
the instantaneous check of the decision cycle (main.go line 157) uses
inclusive comparisons: with band [7,9] a reading of exactly 7 W passes
the in-band test, and a full cycle with that boundary reading proceeds
all the way to invoking the relay shutoff. -/
theorem boundary_watts_pass_instant_check :
    inStandbyRange 7 9 7 = true ∧
    (checkAndControl ⟨7, 9, 900, 60⟩ 1000 ("") respsBoundary).2 = true :=
  ⟨rfl, rfl⟩

/-- C1 amended: the per-sample test of getStandbyDuration's backward
scan is strict at both band edges, while the instantaneous in-band
check of the decision cycle is inclusive: a value exactly equal to
minWatts or maxWatts fails the scan test but passes the instantaneous
check (whenever the band is nonempty, since the test at one edge also
compares that edge against the other). -/
theorem band_tests_one_strict_one_inclusive (minW maxW : ℚ) :
    inBandScan minW maxW minW = false ∧ inBandScan minW maxW maxW = false ∧
    inStandbyRange minW maxW minW = decide (minW ≤ maxW) ∧
    inStandbyRange minW maxW maxW = decide (minW ≤ maxW) := by
  refine ⟨?_, ?_, ?_, ?_⟩ <;> simp [inBandScan, inStandbyRange]

/-- C2 counterexample.  For the scenario series 60, 60, 8, 8, 8 at
60-second steps ending at second 1000 with band [7,9], the computed
standby duration is 120 seconds, not the approximately 180 seconds the
claim states: the duration is measured from the timestamp of the
earliest in-band sample, so three in-band samples span only two
60-second steps. -/
theorem standby_scenario_not_180 :
    getStandbyDurationFull 7 9 1000 (.ok (envOfValues seriesC2)) = .ok 120 ∧
    (120 : Int) ≠ 180 :=
  ⟨rfl, by decide⟩

/-- C2 amended: for the scenario series the unbroken in-band run starts
at the third sample from the end (second 880), and the returned
duration is now minus that timestamp, i.e. 2 steps of 60 s = 120 s. -/
theorem standby_scenario_is_120 :
    standbyStart 7 9 seriesC2 = some 880 ∧
    getStandbyDurationFull 7 9 1000 (.ok (envOfValues seriesC2)) = .ok (2 * 60) :=
  ⟨by decide, rfl⟩

/-- Spec-side definition, following the spec's words: the maximal
unbroken run of in-band samples read backwards from the newest, i.e.
the longest suffix of the ascending series whose every sample lies
strictly inside the band, listed newest first. -/
def inBandSuffix (minW maxW : ℚ) (vs : List Pair) : List Pair :=
  vs.reverse.takeWhile (fun p => inBandScan minW maxW (valOf p))

/-- Spec-side definition, following the spec's words: now minus the
earliest timestamp of the unbroken in-band run, or zero when the run
is empty (no samples, or newest sample already outside the band). -/
def specStandbyDuration (minW maxW : ℚ) (now : Int) (vs : List Pair) : Int :=
  match (inBandSuffix minW maxW vs).getLast? with
  | some p => now - ratTrunc (tsOf p)
  | none => 0

/-- On a list whose pairs all have at least two entries, the backward
scan yields the truncated timestamp of the last element of the in-band
prefix of the (already reversed) list, or the incoming candidate when
that prefix is empty. -/
theorem scanBack_eq_takeWhile (minW maxW : ℚ) (l : List Pair)
    (hwf : ∀ p ∈ l, p.length ≥ 2) (cur : Option Int) :
    scanBack minW maxW cur l =
      match (l.takeWhile (fun p => inBandScan minW maxW (valOf p))).getLast? with
      | some p => some (ratTrunc (tsOf p))
      | none => cur := by
  induction l generalizing cur with
  | nil => simp [scanBack]
  | cons p rest ih =>
    have hp : p.length ≥ 2 := hwf p (List.mem_cons_self p rest)
    have hrest : ∀ q ∈ rest, q.length ≥ 2 :=
      fun q hq => hwf q (List.mem_cons_of_mem p hq)
    by_cases hband : inBandScan minW maxW (valOf p) = true
    · rw [scanBack, if_pos hp, if_pos hband, ih hrest, List.takeWhile_cons,
        if_pos hband, List.getLast?_cons]
      cases htw : (rest.takeWhile (fun q => inBandScan minW maxW (valOf q))).getLast? with
      | none =>
        have hnil := List.getLast?_eq_none_iff.mp htw
        simp [hnil]
      | some q =>
        simp [List.getLastD_eq_getLast?, htw]
    · rw [scanBack, if_pos hp, if_neg hband]
      simp [List.takeWhile_cons, hband]

/-- The backward scan with an arbitrary incoming candidate agrees with
the scan started from none, falling back to the candidate only when
the fresh scan records nothing. -/
theorem scanBack_cur (minW maxW : ℚ) (l : List Pair) : ∀ cur : Option Int,
    scanBack minW maxW cur l =
      match scanBack minW maxW none l with
      | some s => some s
      | none => cur := by
  induction l with
  | nil => intro cur; simp [scanBack]
  | cons p rest ih =>
    intro cur
    by_cases hp : p.length ≥ 2
    · by_cases hband : inBandScan minW maxW (valOf p) = true
      · rw [scanBack, scanBack, if_pos hp, if_pos hp, if_pos hband, if_pos hband,
          ih (some (ratTrunc (tsOf p)))]
        cases scanBack minW maxW none rest <;> simp
      · rw [scanBack, scanBack, if_pos hp, if_pos hp, if_neg hband, if_neg hband]
    · rw [scanBack, scanBack, if_neg hp, if_neg hp, ih cur]

/-- On a series whose pairs all have at least two entries, the recorded
standbyStart is the truncated timestamp of the last (i.e. earliest)
element of the in-band suffix, or none when that suffix is empty. -/
theorem standbyStart_eq_suffix (minW maxW : ℚ) (vs : List Pair)
    (hwf : ∀ p ∈ vs, p.length ≥ 2) :
    standbyStart minW maxW vs =
      match (inBandSuffix minW maxW vs).getLast? with
      | some p => some (ratTrunc (tsOf p))
      | none => none := by
  have hwfr : ∀ p ∈ vs.reverse, p.length ≥ 2 :=
    fun p hp => hwf p (List.mem_reverse.mp hp)
  rw [standbyStart, scanBack_eq_takeWhile minW maxW vs.reverse hwfr none]
  rfl

/-- C3.  The standby-duration computation behaves as specified: a
response with no series yields zero; a response whose first series
carries well-formed value pairs yields now minus the earliest
timestamp of the unbroken in-band suffix (zero when that suffix is
empty); and when the newest sample of the series is outside the band
the result is zero. -/
theorem standby_duration_follows_spec (minW maxW : ℚ) (now : Int) (st : String)
    (m : List (String × String)) (v : Pair) (vs : List Pair) (rest : List VMSeries)
    (hwf : ∀ p ∈ vs, p.length ≥ 2) :
    getStandbyDurationFull minW maxW now (.ok ⟨st, []⟩) = .ok 0 ∧
    getStandbyDurationFull minW maxW now (.ok ⟨st, ⟨m, v, vs⟩ :: rest⟩) =
      .ok (specStandbyDuration minW maxW now vs) ∧
    (∀ p, vs.getLast? = some p → inBandScan minW maxW (valOf p) = false →
      getStandbyDurationFull minW maxW now (.ok ⟨st, ⟨m, v, vs⟩ :: rest⟩) = .ok 0) := by
  refine ⟨rfl, ?_, ?_⟩
  · show Except.ok (standbyDurationOf minW maxW now vs) = _
    rw [standbyDurationOf, standbyStart_eq_suffix minW maxW vs hwf,
      specStandbyDuration]
    cases (inBandSuffix minW maxW vs).getLast? <;> rfl
  · intro p hlast hband
    have hrev : vs.reverse.head? = some p := by
      rw [List.head?_reverse]; exact hlast
    cases hvr : vs.reverse with
    | nil => rw [hvr] at hrev; simp at hrev
    | cons a t =>
      rw [hvr] at hrev
      obtain rfl : a = p := by simpa using hrev
      have hav : a ∈ vs := by
        apply List.mem_reverse.mp
        rw [hvr]
        exact List.mem_cons_self a t
      have hpa : a.length ≥ 2 := hwf a hav
      show Except.ok (standbyDurationOf minW maxW now vs) = _
      rw [standbyDurationOf, standbyStart, hvr, scanBack, if_pos hpa,
        if_neg (by simp [hband])]

/-- Witness for standby_duration_follows_spec at the concrete scenario
series. -/
theorem standby_duration_follows_spec_witness :
    getStandbyDurationFull 7 9 1000 (.ok ⟨"success", ⟨[], [], seriesC2⟩ :: []⟩) =
      .ok (specStandbyDuration 7 9 1000 seriesC2) :=
  (standby_duration_follows_spec 7 9 1000 ("success") [] [] seriesC2 []
    (by decide)).2.1

/-- C6.  Appending a new newest sample that lies inside the band, with
now advancing to that sample's timestamp, never decreases the standby
duration; appending a newest sample outside the band makes the
duration zero immediately, whatever the rest of the series holds. -/
theorem standby_duration_monotone (minW maxW t w : ℚ) (s : String)
    (now now2 : Int) (vs : List Pair) :
    (inBandScan minW maxW w = true → now ≤ ratTrunc t →
      standbyDurationOf minW maxW now vs ≤
        standbyDurationOf minW maxW (ratTrunc t) (vs ++ [sampleP t s w])) ∧
    (inBandScan minW maxW w = false →
      standbyDurationOf minW maxW now2 (vs ++ [sampleP t s w]) = 0) := by
  have hrev : (vs ++ [sampleP t s w]).reverse = sampleP t s w :: vs.reverse := by
    simp
  have hlen : (sampleP t s w).length ≥ 2 := by simp [sampleP]
  have hval : valOf (sampleP t s w) = w := by simp [sampleP, valOf]
  have hts : tsOf (sampleP t s w) = t := by simp [sampleP, tsOf]
  constructor
  · intro hband hnow
    rw [standbyDurationOf, standbyDurationOf, standbyStart, standbyStart, hrev,
      scanBack, if_pos hlen, hval, if_pos hband, hts,
      scanBack_cur minW maxW vs.reverse (some (ratTrunc t))]
    cases hsb : scanBack minW maxW none vs.reverse with
    | none => simp
    | some u => simp; omega
  · intro hband
    rw [standbyDurationOf, standbyStart, hrev, scanBack, if_pos hlen, hval,
      if_neg (by simp [hband])]

/-- Witness for standby_duration_monotone: appending the in-band sample
(1000, 8 W) to a series whose newest sample is (940, 8 W), with now
moving from 940 to 1000, does not decrease the duration. -/
theorem standby_duration_monotone_witness :
    standbyDurationOf 7 9 940 [sampleP 940 ("8") 8] ≤
      standbyDurationOf 7 9 (ratTrunc 1000)
        ([sampleP 940 ("8") 8] ++ [sampleP 1000 ("8") 8]) :=
  (standby_duration_monotone 7 9 1000 8 ("8") 940 0 [sampleP 940 ("8") 8]).1
    (by decide) (by decide)

/-- C10.  A value pair with fewer than two elements is transparent to
the backward scan: removing it from anywhere in the series leaves the
recorded standbyStart unchanged, so it neither breaks an in-band run
nor becomes the run-start candidate, and a run extends backwards
across it. -/
theorem malformed_pair_transparent (minW maxW : ℚ) (vs ws : List Pair)
    (bad : Pair) (hbad : bad.length < 2) :
    standbyStart minW maxW (vs ++ bad :: ws) = standbyStart minW maxW (vs ++ ws) := by
  have hb : ¬ bad.length ≥ 2 := by omega
  have key : ∀ (l1 l2 : List Pair) (cur : Option Int),
      scanBack minW maxW cur (l1 ++ bad :: l2) = scanBack minW maxW cur (l1 ++ l2) := by
    intro l1
    induction l1 with
    | nil =>
      intro l2 cur
      rw [List.nil_append, List.nil_append, scanBack, if_neg hb]
    | cons p tl ih =>
      intro l2 cur
      rw [List.cons_append, List.cons_append, scanBack, scanBack]
      split
      · split
        · exact ih l2 (some (ratTrunc (tsOf p)))
        · rfl
      · exact ih l2 cur
  rw [standbyStart, standbyStart]
  have h1 : (vs ++ bad :: ws).reverse = ws.reverse ++ bad :: vs.reverse := by
    simp
  have h2 : (vs ++ ws).reverse = ws.reverse ++ vs.reverse := by
    simp
  rw [h1, h2, key ws.reverse vs.reverse none]

/-- Witness for malformed_pair_transparent: a single-element pair
between two in-band samples does not break the run. -/
theorem malformed_pair_transparent_witness :
    standbyStart 7 9 ([sampleP 880 ("8") 8] ++ [JVal.null] :: [sampleP 1000 ("8") 8]) =
      standbyStart 7 9 ([sampleP 880 ("8") 8] ++ [sampleP 1000 ("8") 8]) :=
  malformed_pair_transparent 7 9 [sampleP 880 ("8") 8] [sampleP 1000 ("8") 8]
    [JVal.null] (by decide)

/-- A pair whose checked string value scans above 10 W (relay-on). -/
def isHighReading (p : Pair) : Bool :=
  match valOk p with
  | some w => decide (w > 10)
  | none => false

/-- A pair whose checked string value scans below 5 W (relay-off). -/
def isLowReading (p : Pair) : Bool :=
  match valOk p with
  | some w => decide (w < 5)
  | none => false

/-- Spec-side definition, following the spec's words: the series
contains a sub-5 W reading followed strictly later by an above-10 W
reading. -/
def hasLowHigh : List Pair → Bool
  | [] => false
  | p :: rest => (isLowReading p && rest.any isHighReading) || hasLowHigh rest

/-- The previousLow scan equals: either the flag was already set and a
high reading occurs anywhere, or a low reading occurs strictly before
a high one. -/
theorem scanLowHigh_eq (l : List Pair) : ∀ prev : Bool,
    scanLowHigh prev l = (prev && l.any isHighReading || hasLowHigh l) := by
  induction l with
  | nil => intro prev; simp [scanLowHigh, hasLowHigh]
  | cons p rest ih =>
    intro prev
    cases hv : valOk p with
    | none =>
      simp only [scanLowHigh, hv, hasLowHigh, List.any_cons,
        isHighReading, isLowReading]
      rw [ih prev]
      cases prev <;> simp
    | some w =>
      by_cases h5 : w < 5
      · have h10 : ¬ (w > 10) := by linarith
        simp only [scanLowHigh, hv, if_pos h5, hasLowHigh, List.any_cons,
          isHighReading, isLowReading]
        rw [ih true]
        cases prev <;> simp [h5, h10]
      · simp only [scanLowHigh, hv, if_neg h5, hasLowHigh, List.any_cons,
          isHighReading, isLowReading]
        by_cases hph : (prev && decide (w > 10)) = true
        · rw [if_pos hph]
          rcases Bool.and_eq_true_iff.mp hph with ⟨hprev, hw⟩
          simp [hprev, hw]
        · rw [if_neg hph, ih prev]
          cases prev with
          | false => simp [h5]
          | true =>
            have h10 : ¬ (w > 10) := by simpa using hph
            simp [h5, h10]

/-- C7 counterexample.  The claim says wasPowerTurnedOnRecently is true
whenever a reading below 5 W is followed later in the window by a
reading above 10 W, but the scan only runs when the first series holds
more than 2 values (main.go line 308): a window of exactly two samples,
0 W then 50 W, exhibits the transition yet the function returns false. -/
theorem power_on_transition_two_samples_missed :
    wasPowerTurnedOnRecentlyFull
      (.ok (envOfValues [sampleP 0 ("0") 0, sampleP 60 ("50") 50])) = .ok false ∧
    hasLowHigh [sampleP 0 ("0") 0, sampleP 60 ("50") 50] = true :=
  ⟨rfl, by decide⟩

/-- C7 amended: on a decoded envelope, wasPowerTurnedOnRecently returns
false when there are no series, and otherwise returns true exactly when
the first series holds more than 2 values AND some sub-5 W reading is
followed strictly later by some above-10 W reading; all other cases are
false. -/
theorem power_on_detection_characterized (st : String)
    (m : List (String × String)) (v : Pair) (vs : List Pair)
    (rest : List VMSeries) :
    wasPowerTurnedOnRecentlyFull (.ok ⟨st, []⟩) = .ok false ∧
    wasPowerTurnedOnRecentlyFull (.ok ⟨st, ⟨m, v, vs⟩ :: rest⟩) =
      .ok (decide (vs.length > 2) && hasLowHigh vs) := by
  constructor
  · rfl
  · simp only [wasPowerTurnedOnRecentlyFull]
    by_cases h : vs.length > 2
    · rw [if_pos h, scanLowHigh_eq vs false]
      simp [h]
    · rw [if_neg h]
      simp [h]

/-- C8.  hasRecentShellyMetrics on a successful envelope: zero series
give false with no error; a first series whose newest sample has a
numeric timestamp gives true exactly when the sample's age now minus
its timestamp is at most `within`; in particular any age strictly
beyond `within` gives false. -/
theorem fresh_metrics_characterized (within now : Int) (ts : ℚ) (v1 : JVal)
    (vrest : Pair) (m : List (String × String)) (vv : List Pair)
    (rest : List VMSeries) :
    hasRecentShellyMetricsFull within now (.ok ⟨"success", []⟩) = .ok false ∧
    hasRecentShellyMetricsFull within now
        (.ok ⟨"success", ⟨m, JVal.num ts :: v1 :: vrest, vv⟩ :: rest⟩) =
      .ok (decide (now - ratTrunc ts ≤ within)) ∧
    (now - ratTrunc ts > within →
      hasRecentShellyMetricsFull within now
          (.ok ⟨"success", ⟨m, JVal.num ts :: v1 :: vrest, vv⟩ :: rest⟩) =
        .ok false) := by
  refine ⟨rfl, rfl, ?_⟩
  intro h
  have hd : ¬ (now - ratTrunc ts ≤ within) := by omega
  simp [hasRecentShellyMetricsFull, queryVMr, hd]

/-- Witness for fresh_metrics_characterized: a sample 300 seconds old
against a 120-second freshness window is reported stale. -/
theorem fresh_metrics_characterized_witness :
    (1000 : Int) - ratTrunc 700 > 120 ∧
    hasRecentShellyMetricsFull 120 1000
        (.ok ⟨"success", ⟨[], JVal.num 700 :: JVal.null :: [], []⟩ :: []⟩) =
      .ok false :=
  ⟨by decide,
    (fresh_metrics_characterized 120 1000 700 JVal.null [] [] [] []).2.2
      (by decide)⟩

/-- Envelope whose status is "error" but whose data carries an in-band
power history. -/
def envErrC5 : VMEnvelope :=
  ⟨"error", [⟨[], [],
    [sampleP 880 ("8") 8, sampleP 940 ("8") 8, sampleP 1000 ("8") 8]⟩]⟩

/-- C5 counterexample.  The claim says a decoded envelope whose status
is not success is a hard error for both instant and range queries, but
the range-query path of getStandbyDuration never inspects the status
field: on an envelope with status "error" it still returns a duration
derived from the envelope's data (120 s here), while the instant path
queryVM turns the same envelope into an error. -/
theorem range_query_ignores_status :
    getStandbyDurationFull 7 9 1000 (.ok envErrC5) = .ok 120 ∧
    queryVMr (.ok envErrC5) = .error ("VM query returned status: error") :=
  ⟨rfl, rfl⟩

/-- C5 amended: only the instant-query path queryVM treats a non-success
status as a hard error; the inline range-query paths of
getStandbyDuration and wasPowerTurnedOnRecently ignore the status field
entirely and compute from the envelope's data whatever the status. -/
theorem status_check_instant_only (env : VMEnvelope) (minW maxW : ℚ)
    (now : Int) (st : String) :
    (env.status ≠ "success" →
      queryVMr (.ok env) = .error ("VM query returned status: " ++ env.status)) ∧
    getStandbyDurationFull minW maxW now (.ok ⟨st, env.result⟩) =
      getStandbyDurationFull minW maxW now (.ok ⟨"success", env.result⟩) ∧
    wasPowerTurnedOnRecentlyFull (.ok ⟨st, env.result⟩) =
      wasPowerTurnedOnRecentlyFull (.ok ⟨"success", env.result⟩) := by
  refine ⟨?_, rfl, rfl⟩
  intro h
  simp [queryVMr, h]

/-- Witness for status_check_instant_only at the status-"error"
envelope. -/
theorem status_check_instant_only_witness :
    queryVMr (.ok envErrC5) =
      .error ("VM query returned status: " ++ envErrC5.status) :=
  (status_check_instant_only envErrC5 7 9 1000 ("x")).1 (by decide)

/-- A successful getShellyBambuWatts result means the HTTP layer did
not fail. -/
theorem shelly_ok_no_fail {r : HttpOutcome VMEnvelope} {x : ℚ × String}
    (h : getShellyBambuWattsFull r = .ok x) : r.isFail = false := by
  cases r <;> simp_all [getShellyBambuWattsFull, queryVMr, HttpOutcome.isFail]

/-- A successful hasRecentShellyMetrics result means the HTTP layer did
not fail. -/
theorem recent_ok_no_fail {within now : Int} {r : HttpOutcome VMEnvelope}
    {b : Bool} (h : hasRecentShellyMetricsFull within now r = .ok b) :
    r.isFail = false := by
  cases r <;> simp_all [hasRecentShellyMetricsFull, queryVMr, HttpOutcome.isFail]

/-- A successful wasPowerTurnedOnRecently result means the HTTP layer
did not fail. -/
theorem poweron_ok_no_fail {r : HttpOutcome VMEnvelope} {b : Bool}
    (h : wasPowerTurnedOnRecentlyFull r = .ok b) : r.isFail = false := by
  cases r <;> simp_all [wasPowerTurnedOnRecentlyFull, HttpOutcome.isFail]

/-- A successful isBambuPrinting result means the HTTP layer did not
fail. -/
theorem printing_ok_no_fail {r : HttpOutcome VMEnvelope} {b : Bool}
    (h : isBambuPrintingFull r = .ok b) : r.isFail = false := by
  cases r <;> simp_all [isBambuPrintingFull, queryVMr, HttpOutcome.isFail]

/-- A successful wasPrintingRecently result means the HTTP layer did
not fail. -/
theorem wasprinting_ok_no_fail {r : HttpOutcome VMEnvelope} {b : Bool}
    (h : wasPrintingRecentlyFull r = .ok b) : r.isFail = false := by
  cases r <;> simp_all [wasPrintingRecentlyFull, queryVMr, HttpOutcome.isFail]

/-- A successful getStandbyDuration result means the HTTP layer did not
fail. -/
theorem standby_ok_no_fail {minW maxW : ℚ} {now : Int}
    {r : HttpOutcome VMEnvelope} {d : Int}
    (h : getStandbyDurationFull minW maxW now r = .ok d) : r.isFail = false := by
  cases r <;> simp_all [getStandbyDurationFull, HttpOutcome.isFail]

/-- When a cycle invokes the relay shutoff, every one of its six queries
had a fully successful HTTP exchange. -/
theorem relay_requires_ok_queries (cfg : CfgBand) (now : Int) (st : String)
    (r : CycleResponses) (h2 : (checkAndControl cfg now st r).2 = true) :
    r.shellyResp.isFail = false ∧ r.recentResp.isFail = false ∧
    r.powerOnResp.isFail = false ∧ r.printingResp.isFail = false ∧
    r.wasPrintingResp.isFail = false ∧ r.standbyResp.isFail = false := by
  unfold checkAndControl at h2
  cases h1 : getShellyBambuWattsFull r.shellyResp with
  | error e => rw [h1] at h2; simp at h2
  | ok wip =>
    obtain ⟨watts, ip⟩ := wip
    rw [h1] at h2
    simp only at h2
    cases hh2 : hasRecentShellyMetricsFull (cfg.checkInterval * 2) now
        r.recentResp with
    | error e => rw [hh2] at h2; simp at h2
    | ok hasRecent =>
      rw [hh2] at h2
      cases hasRecent with
      | false => simp at h2
      | true =>
        simp only [Bool.not_true, Bool.false_eq_true, if_false] at h2
        cases h3 : wasPowerTurnedOnRecentlyFull r.powerOnResp with
        | error e => rw [h3] at h2; simp at h2
        | ok pOn =>
          rw [h3] at h2
          cases pOn with
          | true => simp at h2
          | false =>
            simp only [if_false] at h2
            cases h4 : isBambuPrintingFull r.printingResp with
            | error e => rw [h4] at h2; simp at h2
            | ok printing =>
              rw [h4] at h2
              cases printing with
              | true => simp at h2
              | false =>
                simp only [if_false] at h2
                cases h5 : wasPrintingRecentlyFull r.wasPrintingResp with
                | error e => rw [h5] at h2; simp at h2
                | ok wasRec =>
                  rw [h5] at h2
                  cases wasRec with
                  | true => simp at h2
                  | false =>
                    simp only [if_false] at h2
                    cases hband : inStandbyRange cfg.minWatts cfg.maxWatts watts with
                    | false => rw [hband] at h2; simp at h2
                    | true =>
                      rw [hband] at h2
                      simp only [Bool.not_true, Bool.false_eq_true, if_false] at h2
                      cases h6 : getStandbyDurationFull cfg.minWatts cfg.maxWatts
                          now r.standbyResp with
                      | error e => rw [h6] at h2; simp at h2
                      | ok d =>
                        exact ⟨shelly_ok_no_fail h1, recent_ok_no_fail hh2,
                          poweron_ok_no_fail h3, printing_ok_no_fail h4,
                          wasprinting_ok_no_fail h5, standby_ok_no_fail h6⟩

/-- C4.  If any of the six metric queries a cycle can issue fails at the
HTTP layer (transport failure, non-200 status, or undecodable body),
the cycle never invokes the relay shutoff. -/
theorem query_failure_never_shuts_off (cfg : CfgBand) (now : Int)
    (st : String) (r : CycleResponses)
    (h : r.shellyResp.isFail = true ∨ r.recentResp.isFail = true ∨
      r.powerOnResp.isFail = true ∨ r.printingResp.isFail = true ∨
      r.wasPrintingResp.isFail = true ∨ r.standbyResp.isFail = true) :
    (checkAndControl cfg now st r).2 = false := by
  by_contra hne
  have h2 : (checkAndControl cfg now st r).2 = true := by
    cases hv : (checkAndControl cfg now st r).2
    · exact absurd hv hne
    · rfl
  have hok := relay_requires_ok_queries cfg now st r h2
  rcases h with h | h | h | h | h | h <;> simp_all

/-- Witness for query_failure_never_shuts_off: a cycle whose standby
range query hits a transport error does not shut off, even though every
other response is favourable. -/
theorem query_failure_never_shuts_off_witness :
    (checkAndControl ⟨7, 9, 900, 60⟩ 1000 ("")
      ⟨respsBoundary.shellyResp, respsBoundary.recentResp,
       respsBoundary.powerOnResp, respsBoundary.printingResp,
       respsBoundary.wasPrintingResp, .transportErr⟩).2 = false :=
  query_failure_never_shuts_off ⟨7, 9, 900, 60⟩ 1000 ("")
    ⟨respsBoundary.shellyResp, respsBoundary.recentResp,
     respsBoundary.powerOnResp, respsBoundary.printingResp,
     respsBoundary.wasPrintingResp, .transportErr⟩
    (Or.inr (Or.inr (Or.inr (Or.inr (Or.inr rfl)))))

/-- First component of the relay-invocation branch of checkAndControl:
whichever way the empty-address guard goes, the cached value is x. -/
theorem guard_pair_fst (x : String) (a b : Bool) :
    (if x = "" then (x, a) else (x, b)).1 = x := by
  split <;> rfl

/-- The cached IP a cycle leaves behind: on a failed power query the old
value, otherwise the reported ip_address when non-empty and the old
value when empty.  No later step of the cycle touches the cache. -/
theorem checkAndControl_fst (cfg : CfgBand) (now : Int) (st : String)
    (r : CycleResponses) :
    (checkAndControl cfg now st r).1 =
      match getShellyBambuWattsFull r.shellyResp with
      | .error _ => st
      | .ok (_, ip) => if ip ≠ "" then ip else st := by
  unfold checkAndControl
  cases h1 : getShellyBambuWattsFull r.shellyResp with
  | error e => rfl
  | ok wip =>
    obtain ⟨watts, ip⟩ := wip
    repeat' split
    all_goals first
      | rfl
      | exact guard_pair_fst _ _ _

/-- C9.  The IP cache is overwritten only by a non-empty ip_address
label from a successful power query: after any single cycle the cache
either still holds its old value or holds the non-empty address the
query reported; consequently, across any sequence of cycles, a cache
that is non-empty never becomes empty again. -/
theorem ip_cache_invariant (cfg : CfgBand) (now : Int) :
    (∀ (st : String) (r : CycleResponses),
      (checkAndControl cfg now st r).1 = st ∨
      ∃ w : ℚ, getShellyBambuWattsFull r.shellyResp =
          .ok (w, (checkAndControl cfg now st r).1) ∧
        (checkAndControl cfg now st r).1 ≠ "") ∧
    (∀ (rs : List CycleResponses) (st : String), st ≠ "" →
      runCycles cfg now st rs ≠ "") := by
  constructor
  · intro st r
    cases h1 : getShellyBambuWattsFull r.shellyResp with
    | error e =>
      left
      rw [checkAndControl_fst cfg now st r, h1]
    | ok wip =>
      obtain ⟨w, ip⟩ := wip
      by_cases hip : ip = ""
      · left
        rw [checkAndControl_fst cfg now st r, h1]
        simp [hip]
      · right
        refine ⟨w, ?_, ?_⟩
        · rw [checkAndControl_fst cfg now st r, h1]
          simp [hip]
        · rw [checkAndControl_fst cfg now st r, h1]
          simp [hip]
  · intro rs
    induction rs with
    | nil => intro st hst; exact hst
    | cons r rest ih =>
      intro st hst
      show runCycles cfg now (checkAndControl cfg now st r).1 rest ≠ ""
      apply ih
      rw [checkAndControl_fst cfg now st r]
      cases h1 : getShellyBambuWattsFull r.shellyResp with
      | error e => exact hst
      | ok wip =>
        obtain ⟨w, ip⟩ := wip
        by_cases hip : ip = ""
        · simp [hip]
          exact hst
        · simp [hip]

/-- Witness for ip_cache_invariant: a non-empty cached address survives
a cycle whose every query fails. -/
theorem ip_cache_invariant_witness :
    runCycles ⟨7, 9, 900, 60⟩ 1000 ("10.0.0.5")
      [⟨.transportErr, .transportErr, .transportErr, .transportErr,
        .transportErr, .transportErr⟩] ≠ "" :=
  (ip_cache_invariant ⟨7, 9, 900, 60⟩ 1000).2
    [⟨.transportErr, .transportErr, .transportErr, .transportErr,
      .transportErr, .transportErr⟩] ("10.0.0.5") (by decide)
